import Mathlib

/-!
Verification of the Superset frontend excerpt: the explore-page data
hydration logic (`fetchExploreData` / `ExplorePage` in
`src/pages/Chart/index.tsx`), the SQL Lab query auto-refresh polling
helpers (`isQueryRunning` / `shouldCheckForQueries` /
`QueryAutoRefresh`), and the annotation editing modal
(`AnnotationModal` in `src/explore/components/controls/`).

JavaScript values that the code treats dynamically (query dictionaries,
error payloads, form-data objects) are embedded as the inductive type
`JSVal`; objects are association lists of string keys.
-/

namespace Superset

/-- A JavaScript runtime value, as far as the excerpted code inspects
values dynamically: `null`, `undefined`, strings, numbers, booleans,
arrays and plain objects (modelled as ordered key/value lists). -/
inductive JSVal where
  | null
  | undefined
  | str (s : String)
  | num (n : Int)
  | bool (b : Bool)
  | arr (elems : List JSVal)
  | obj (fields : List (String × JSVal))

/-- JavaScript truthiness: `null`, `undefined`, `false`, `0` and the
empty string are falsy; every array and object is truthy. -/
def jsTruthy : JSVal → Bool
  | JSVal.null => false
  | JSVal.undefined => false
  | JSVal.str s => !s.isEmpty
  | JSVal.num n => n != 0
  | JSVal.bool b => b
  | JSVal.arr _ => true
  | JSVal.obj _ => true

/-- First binding of a key in an object field list (JS property lookup);
`none` when the key is absent. -/
def lookupKey : List (String × JSVal) → String → Option JSVal
  | [], _ => none
  | (k, v) :: rest, key => if k == key then some v else lookupKey rest key

/-- Optional chaining `v?.key`: property access that yields `undefined`
on `null`/`undefined` receivers and on non-objects instead of throwing. -/
def getField (v : JSVal) (key : String) : JSVal :=
  match v with
  | JSVal.obj fields => (lookupKey fields key).getD JSVal.undefined
  | _ => JSVal.undefined

/-- Embeds `isDefined` from `@superset-ui/core`: the value is neither `null`
nor `undefined`. -/
def isDefinedVal : JSVal → Bool
  | JSVal.null => false
  | JSVal.undefined => false
  | _ => true

/-! ## Query auto-refresh (SQL Lab)

The `QueryAutoRefresh` component implementation
(`src/SqlLab/components/QueryAutoRefresh`) is not part of the excerpt;
only its test suite is.  The definitions below are modelled from the
spec and pinned down by what the tests assert. -/

/-- Modelled from the spec: the query states a query record may carry
("a query record with a running/succeeded/failed state used only to
decide whether to keep polling"). -/
def queryStates : List String := ["running", "success", "failed"]

/-- Modelled from the spec: the states that count as "running" for the
purpose of continued polling. -/
def runningStates : List String := ["running"]

/-- Modelled from the spec: `isQueryRunning` from
`src/SqlLab/components/QueryAutoRefresh` (implementation absent from
the excerpt).  A value is a running query exactly when its `state`
property is a well-formed state string that is a running state; any
`null`, `undefined`, primitive or malformed-state input yields `false`
(the tests assert this for `null`, `undefined`, a string, and an object
whose `state` is itself an object). -/
def isQueryRunning (q : JSVal) : Bool :=
  match getField q "state" with
  | JSVal.str s => runningStates.contains s && queryStates.contains s
  | _ => false

/-- Modelled from the spec: `shouldCheckForQueries` from
`src/SqlLab/components/QueryAutoRefresh` (implementation absent from
the excerpt).  True exactly when the argument is a dictionary one of
whose values `isQueryRunning` accepts; non-object inputs yield `false`. -/
def shouldCheckForQueries (queryList : JSVal) : Bool :=
  match queryList with
  | JSVal.obj fields => fields.any (fun p => isQueryRunning p.2)
  | _ => false

/-- One status update returned by `GET /api/v1/query/updated_since`. -/
structure QueryUpdate where
  id : String
  status : String
deriving Repr, DecidableEq

/-- The Redux actions the polling loop dispatches. -/
inductive SqlLabAction where
  | refreshQueries (updates : List QueryUpdate)
  | clearInactiveQueries
deriving Repr, DecidableEq

/-- The REST endpoints the excerpted code can address.  `other` stands
for any endpoint outside the four families the excerpt mentions. -/
inductive Endpoint where
  | explore
  | chart (chartId : String)
  | queryUpdatedSince
  | annotationOf (layerId : Nat)
  | other (url : String)
deriving Repr, DecidableEq

/-- The URL string of each endpoint as it appears in the source. -/
def Endpoint.url : Endpoint → String
  | Endpoint.explore => "api/v1/explore/"
  | Endpoint.chart chartId => "api/v1/chart/" ++ chartId
  | Endpoint.queryUpdatedSince => "/api/v1/query/updated_since"
  | Endpoint.annotationOf layerId =>
      "annotation_layer/" ++ toString layerId ++ "/annotation"
  | Endpoint.other u => u

/-- A network request issued by the excerpted code. -/
structure Request where
  method : String
  endpoint : Endpoint
deriving Repr, DecidableEq

/-- Modelled from the spec: the network requests one polling tick of
`QueryAutoRefresh` issues.  While some tracked query is running the
tick fetches status updates once from `/api/v1/query/updated_since`;
otherwise the network call is skipped entirely. -/
def tickRequests (queries : JSVal) : List Request :=
  if shouldCheckForQueries queries then
    [⟨"GET", Endpoint.queryUpdatedSince⟩]
  else []

/-- Modelled from the spec: the Redux actions one polling tick of
`QueryAutoRefresh` dispatches, given the result list the server
returned.  The tests pin the behaviour on an empty result list: the
prune action `CLEAR_INACTIVE_QUERIES` is dispatched on every tick that
fetches, while `REFRESH_QUERIES` is dispatched only for a non-empty
result list (the test asserts zero refresh dispatches for `result: []`). -/
def tickActions (queries : JSVal) (result : List QueryUpdate) :
    List SqlLabAction :=
  if shouldCheckForQueries queries then
    (if result.isEmpty then [] else [SqlLabAction.refreshQueries result]) ++
      [SqlLabAction.clearInactiveQueries]
  else []

/-- Events of the polling loop: a timer tick (with the current query
dictionary) or the arrival of the response to an outstanding request. -/
inductive RefreshEvent where
  | timerTick (queries : JSVal)
  | responseArrives

/-- Modelled from the spec: how the number of outstanding status
requests evolves.  A tick issues a request only when none is
outstanding and some query runs; a response retires one request. -/
def refreshStep (outstanding : Nat) : RefreshEvent → Nat
  | RefreshEvent.timerTick queries =>
      if outstanding == 0 && shouldCheckForQueries queries then
        outstanding + 1
      else outstanding
  | RefreshEvent.responseArrives => outstanding - 1

/-- Number of outstanding requests after a sequence of events, starting
from the idle state. -/
def runRefresh (events : List RefreshEvent) : Nat :=
  events.foldl refreshStep 0

/-- Fixture: a dictionary holding one running query (mirrors
`runningQueries` in the test file). -/
def runningQueriesVal : JSVal :=
  JSVal.obj [("abcd1234", JSVal.obj
    [("id", JSVal.str "abcd1234"), ("state", JSVal.str "running")])]

/-- Fixture: a dictionary holding one successfully completed query
(mirrors `successfulQueries` in the test file). -/
def successfulQueriesVal : JSVal :=
  JSVal.obj [("efgh5678", JSVal.obj
    [("id", JSVal.str "efgh5678"), ("state", JSVal.str "success")])]

/-- Fixture: a dictionary mixing a valid running query with a `null`
entry (mirrors the mixed valid/invalid test). -/
def mixedQueriesVal : JSVal :=
  JSVal.obj [("abcd1234", JSVal.obj
    [("id", JSVal.str "abcd1234"), ("state", JSVal.str "running")]),
    ("g324t", JSVal.null)]

/-- Fixture: the invalid dictionary from the test
`shouldCheckForQueries is false for invalid inputs`. -/
def invalidQueriesVal : JSVal :=
  JSVal.obj [("1234", JSVal.null), ("23425", JSVal.str "hello world"),
    ("345", JSVal.arr []), ("57346", JSVal.undefined)]

/-! ## Explore page hydration (`src/pages/Chart/index.tsx`) -/

/-- The `result` member of an explore API response: `form_data`,
`dataset` and `slice` are objects when present, `message` a string the
server may attach. -/
structure ExploreResult where
  form_data : Option (List (String × JSVal))
  dataset : Option (List (String × JSVal))
  slice : Option JSVal
  message : Option String

/-- The payload of `GET api/v1/explore/`. -/
structure ExploreResponsePayload where
  result : Option ExploreResult

/-- The fallback initial explore data
(`fallbackExploreInitialData` from `src/explore/fixtures`). -/
structure FallbackData where
  form_data : List (String × JSVal)
  dataset : List (String × JSVal)
  slice : Option JSVal

/-- JavaScript object spread `\x7b...first, ...second\x7d`: keys of
`second` override keys of `first`. -/
def objSpread (first second : List (String × JSVal)) :
    List (String × JSVal) :=
  first.filter (fun p => !(second.any (fun q => q.1 == p.1))) ++ second

/-- Embeds `isValidResult` from `src/pages/Chart/index.tsx`: the payload has
both a `form_data` and a `dataset`. -/
def isValidResult (rv : ExploreResponsePayload) : Bool :=
  match rv.result with
  | some r => r.form_data.isSome && r.dataset.isSome
  | none => false

/-- Embeds `hasDatasetId` from `src/pages/Chart/index.tsx`:
`isDefined(rv?.result?.dataset?.id)`. -/
def hasDatasetId (rv : ExploreResponsePayload) : Bool :=
  match rv.result with
  | some r =>
    match r.dataset with
    | some ds => isDefinedVal ((lookupKey ds "id").getD JSVal.undefined)
    | none => false
  | none => false

/-- The error message `fetchExploreData` throws: the base text, with the
server's `result.message` appended when present. -/
def fetchErrMessage (rv : ExploreResponsePayload) : String :=
  match rv.result with
  | some r =>
    match r.message with
    | some m => "Failed to load chart data" ++ ":\n" ++ m
    | none => "Failed to load chart data"
  | none => "Failed to load chart data"

/-- The `form_data` object of the response, `[]` when absent. -/
def exploreFormData (rv : ExploreResponsePayload) :
    List (String × JSVal) :=
  match rv.result with
  | some r => r.form_data.getD []
  | none => []

/-- The `slice` member of the response, `none` when absent. -/
def exploreSlice (rv : ExploreResponsePayload) : Option JSVal :=
  match rv.result with
  | some r => r.slice
  | none => none

/-- Outcome of one call to `fetchExploreData`: the request it issued,
the state of the fallback object after the call (the source mutates the
shared `fallbackExploreInitialData`), and either the returned payload
or the message of the thrown `Error`. -/
structure FetchExploreOutcome where
  requests : List Request
  fallback : FallbackData
  outcome : Except String ExploreResponsePayload

/-- Embeds `fetchExploreData` from `src/pages/Chart/index.tsx` as a function of
the response `rv` and the current fallback object: a valid payload with
a dataset id is returned; a valid payload without one first merges the
response form data under the fallback form data
(`\x7b...rv.result.form_data, ...fallbackExploreInitialData.form_data\x7d`)
and copies a truthy `slice`, then throws; an invalid payload throws
directly. -/
def fetchExploreData (rv : ExploreResponsePayload)
    (fallback : FallbackData) : FetchExploreOutcome :=
  let reqs := [⟨"GET", Endpoint.explore⟩]
  if isValidResult rv then
    if hasDatasetId rv then
      ⟨reqs, fallback, Except.ok rv⟩
    else
      let fb1 := { fallback with
        form_data := objSpread (exploreFormData rv) fallback.form_data }
      let fb2 :=
        match exploreSlice rv with
        | some s => if jsTruthy s then { fb1 with slice := some s } else fb1
        | none => fb1
      ⟨reqs, fb2, Except.error (fetchErrMessage rv)⟩
  else
    ⟨reqs, fallback, Except.error (fetchErrMessage rv)⟩

/-- The client error object `getClientErrorObject` produces for a
rejected call: an optional `message` and an optional `error` text. -/
structure ClientErrorObject where
  message : Option String
  error : Option String

/-- The parts of the rejection value `err` the handler inspects:
`err.extra?.datasource` and `err.extra?.datasource_name` (both
`JSVal.undefined` when the error carries no `extra`). -/
structure ErrObj where
  extraDatasource : JSVal
  extraDatasourceName : JSVal

/-- The fields of `GET api/v1/chart/(id)` the handler uses to build a
slice. -/
structure ChartResult where
  id : Int
  url : String
  owners : Option (List Int)

/-- The JavaScript `a || b || dflt` chain over optional strings: the
first present non-empty string, else the default. -/
def firstTruthyString : List (Option String) → String → String
  | [], dflt => dflt
  | some s :: rest, dflt =>
      if s.isEmpty then firstTruthyString rest dflt else s
  | none :: rest, dflt => firstTruthyString rest dflt

/-- The toast message of the rejection handler:
`clientError?.message || clientError?.error || t('Failed to load chart data.')`. -/
def toastMessage (clientError : Option ClientErrorObject) : String :=
  firstTruthyString
    [clientError.bind (fun c => c.message),
     clientError.bind (fun c => c.error)]
    "Failed to load chart data."

/-- Which data object a `hydrateExplore` dispatch carries. -/
inductive HydrateSource where
  | fallbackData (fb : FallbackData)
  | fallbackWithErrDataset (fb : FallbackData) (dsId : JSVal)
      (dsName : JSVal)
  | fallbackWithSlice (fb : FallbackData) (dsId : JSVal) (dsName : JSVal)
      (chart : ChartResult)
  | payload (rv : ExploreResponsePayload)

/-- The Redux actions `ExplorePage` dispatches. -/
inductive ExploreAction where
  | addDangerToast (msg : String)
  | hydrateExplore (src : HydrateSource)

/-- The rejection handler of `ExplorePage` (the second `.then` in
`src/pages/Chart/index.tsx`): for the pair `resolved = [clientError,
err]` built by the preceding `.catch`, it does nothing when `err` is
absent (the success path); otherwise it dispatches the danger toast
first, then hydrates: with the plain fallback object unless
`err.extra?.datasource` is truthy, in which case it tries
`GET api/v1/chart/(slice_id)` (when the URL has a truthy `slice_id`)
and hydrates the fallback-with-error-dataset object, augmented with the
fetched slice when that call succeeds.  Returns the dispatched actions
and the requests issued. -/
def explorePageOnSettled (errv : Option ErrObj)
    (clientError : Option ClientErrorObject) (fallback : FallbackData)
    (chartId : Option String) (chartFetch : Option ChartResult) :
    List ExploreAction × List Request :=
  match errv with
  | none => ([], [])
  | some e =>
    let toast := ExploreAction.addDangerToast (toastMessage clientError)
    if jsTruthy e.extraDatasource then
      let errData := HydrateSource.fallbackWithErrDataset fallback
        e.extraDatasource e.extraDatasourceName
      match chartId with
      | some cid =>
        if cid.isEmpty then
          ([toast, ExploreAction.hydrateExplore errData], [])
        else
          match chartFetch with
          | some chart =>
            ([toast, ExploreAction.hydrateExplore
                (HydrateSource.fallbackWithSlice fallback
                  e.extraDatasource e.extraDatasourceName chart)],
             [⟨"GET", Endpoint.chart cid⟩])
          | none =>
            ([toast, ExploreAction.hydrateExplore errData],
             [⟨"GET", Endpoint.chart cid⟩])
      | none => ([toast, ExploreAction.hydrateExplore errData], [])
    else
      ([toast,
        ExploreAction.hydrateExplore (HydrateSource.fallbackData fallback)],
       [])

/-! ## Annotation modal
(`src/explore/components/controls/TextAreaControl.tsx`, second part) -/

/-- The annotation record edited by `AnnotationModal` (the fields of
`AnnotationObject` the component touches). -/
structure AnnotationObject where
  id : Option Nat
  short_descr : Option String
  start_dttm : Option String
  end_dttm : Option String
  long_descr : Option String
  json_metadata : Option String
  created_by : Option JSVal
  changed_by : Option JSVal
  changed_on_delta_humanized : Option JSVal
  layer : Option JSVal

/-- Truthiness of `s?.length` for an optional string field: present and
non-empty. -/
def optLenTruthy : Option String → Bool
  | some s => s.length != 0
  | none => false

/-- Embeds `validate` of `AnnotationModal`: the value `setDisableSave`
receives.  `false` (save enabled) exactly when
`currentAnnotation?.short_descr?.length && currentAnnotation?.start_dttm?.length
&& currentAnnotation?.end_dttm?.length` is truthy, else `true`. -/
def validateDisableSave (cur : Option AnnotationObject) : Bool :=
  match cur with
  | some a =>
    if optLenTruthy a.short_descr && optLenTruthy a.start_dttm &&
        optLenTruthy a.end_dttm then
      false
    else
      true
  | none => true

/-- The update payload of the edit path of `onSave`: the current
annotation record after `delete` of `id`, `created_by`, `changed_by`,
`changed_on_delta_humanized` and `layer`. -/
def stripForUpdate (a : AnnotationObject) : AnnotationObject :=
  { a with id := none, created_by := none, changed_by := none,
           changed_on_delta_humanized := none, layer := none }

/-- The externally visible effects of one `AnnotationModal.onSave`
call: the request sent (with the payload it carried), whether a success
toast was shown (and its text), whether `onAnnotationAdd` was invoked,
and whether the modal was hidden. -/
structure SaveEffects where
  request : Option (Request × AnnotationObject)
  successToast : Option String
  callbackInvoked : Bool
  hidden : Bool

/-- Embeds `onSave` of `AnnotationModal`.  In edit mode, only a current
annotation with a truthy `id` triggers `updateResource` on
`annotation_layer/(layerId)/annotation` with the stripped payload; in
create mode a current annotation triggers `createResource`.  The
success toast, the `onAnnotationAdd` callback (when one was provided)
and `hide()` happen only when the resource call resolves with a truthy
response (`responseOk`); a falsy response leaves the modal untouched. -/
def annotationModalOnSave (isEditMode : Bool)
    (cur : Option AnnotationObject) (layerId : Nat) (hasCallback : Bool)
    (responseOk : Bool) : SaveEffects :=
  if isEditMode then
    match cur with
    | some a =>
      match a.id with
      | some updateId =>
        if updateId != 0 then
          let payload := stripForUpdate a
          let req := some (⟨"PUT", Endpoint.annotationOf layerId⟩, payload)
          if responseOk then
            { request := req,
              successToast := some "The annotation has been updated",
              callbackInvoked := hasCallback, hidden := true }
          else
            { request := req, successToast := none,
              callbackInvoked := false, hidden := false }
        else
          { request := none, successToast := none,
            callbackInvoked := false, hidden := false }
      | none =>
        { request := none, successToast := none,
          callbackInvoked := false, hidden := false }
    | none =>
      { request := none, successToast := none,
        callbackInvoked := false, hidden := false }
  else
    match cur with
    | some a =>
      let req := some (⟨"POST", Endpoint.annotationOf layerId⟩, a)
      if responseOk then
        { request := req,
          successToast := some "The annotation has been saved",
          callbackInvoked := hasCallback, hidden := true }
      else
        { request := req, successToast := none,
          callbackInvoked := false, hidden := false }
    | none =>
      { request := none, successToast := none,
        callbackInvoked := false, hidden := false }

/-! ## Endpoint inventory of the excerpt -/

/-- The endpoint families claim C7 lists: explore hydration, the chart
lookup of the dataset-missing path, and the query status poll. -/
def claimListedEndpoint : Endpoint → Bool
  | Endpoint.explore => true
  | Endpoint.chart _ => true
  | Endpoint.queryUpdatedSince => true
  | Endpoint.annotationOf _ => false
  | Endpoint.other _ => false

/-- The endpoint families section 6 of the spec lists: the claim's
three plus the annotation CRUD endpoint
`/api/v1/annotation_layer/(id)/annotation`. -/
def specListedEndpoint : Endpoint → Bool
  | Endpoint.explore => true
  | Endpoint.chart _ => true
  | Endpoint.queryUpdatedSince => true
  | Endpoint.annotationOf _ => true
  | Endpoint.other _ => false

/-- Every request the embedded operations of the excerpt can issue, for
arbitrary inputs: the explore fetch, the rejection handler's chart
lookup, a polling tick, and an annotation save. -/
def excerptRequests (rv : ExploreResponsePayload) (fb : FallbackData)
    (errv : Option ErrObj) (clientError : Option ClientErrorObject)
    (chartId : Option String) (chartFetch : Option ChartResult)
    (queries : JSVal) (isEditMode : Bool) (cur : Option AnnotationObject)
    (layerId : Nat) (hasCallback responseOk : Bool) : List Request :=
  (fetchExploreData rv fb).requests ++
    (explorePageOnSettled errv clientError fb chartId chartFetch).2 ++
    tickRequests queries ++
    ((annotationModalOnSave isEditMode cur layerId hasCallback
        responseOk).request.map (fun p => p.1)).toList

/-! ## Concrete fixtures -/

/-- Fixture: an explore payload with form data and a dataset that has
no `id` (the dataset-deleted situation). -/
def exampleMissingIdPayload : ExploreResponsePayload :=
  ⟨some ⟨some [("viz_type", JSVal.str "table")],
        some [("table_name", JSVal.str "t")],
        some (JSVal.obj [("slice_name", JSVal.str "my chart")]),
        none⟩⟩

/-- Fixture: a fallback initial data object. -/
def exampleFallback : FallbackData :=
  ⟨[("viz_type", JSVal.str "big_number")], [], none⟩

/-- Fixture: an explore payload with no `result` member. -/
def emptyPayload : ExploreResponsePayload := ⟨none⟩

/-- Fixture: a fully populated annotation record. -/
def exampleAnnotationRecord : AnnotationObject :=
  { id := some 7, short_descr := some "release",
    start_dttm := some "2024-01-01 00:00",
    end_dttm := some "2024-01-02 00:00",
    long_descr := some "deploy window", json_metadata := none,
    created_by := some (JSVal.obj [("id", JSVal.num 3)]),
    changed_by := some (JSVal.obj [("id", JSVal.num 3)]),
    changed_on_delta_humanized := some (JSVal.str "2 days ago"),
    layer := some (JSVal.obj [("id", JSVal.num 1)]) }

/-! ## Helper lemmas -/

theorem string_length_ne_zero_iff (s : String) :
    (s.length != 0) = true ↔ s ≠ "" := by
  rw [bne_iff_ne]
  constructor
  · intro h he
    exact h (by rw [he]; rfl)
  · intro h hl
    apply h
    have hd : s.data = [] := List.length_eq_zero.mp hl
    cases s
    simp only at hd
    rw [hd]

theorem optLenTruthy_iff (o : Option String) :
    optLenTruthy o = true ↔ ∃ s, o = some s ∧ s ≠ "" := by
  rcases o with _ | s
  · simp [optLenTruthy]
  · simp only [optLenTruthy, string_length_ne_zero_iff, Option.some.injEq]
    constructor
    · intro h
      exact ⟨s, rfl, h⟩
    · rintro ⟨s', hs', h⟩
      subst hs'
      exact h

theorem lookupKey_none_of_any_false (l : List (String × JSVal))
    (k : String) (h : l.any (fun q => q.1 == k) = false) :
    lookupKey l k = none := by
  induction l with
  | nil => rfl
  | cons p rest ih =>
    obtain ⟨k', v'⟩ := p
    simp only [List.any_cons, Bool.or_eq_false_iff] at h
    have hk : (k' == k) = false := h.1
    simp [lookupKey, hk, ih h.2]

theorem lookupKey_isSome_of_any_true (l : List (String × JSVal))
    (k : String) (h : l.any (fun q => q.1 == k) = true) :
    ∃ v, lookupKey l k = some v := by
  induction l with
  | nil => simp at h
  | cons p rest ih =>
    obtain ⟨k', v'⟩ := p
    by_cases hk : (k' == k) = true
    · exact ⟨v', by simp [lookupKey, hk]⟩
    · have hk' : (k' == k) = false := by simpa using hk
      simp only [List.any_cons, Bool.or_eq_true] at h
      rcases h with h | h
      · exact absurd h hk
      · rcases ih h with ⟨v, hv⟩
        exact ⟨v, by simp [lookupKey, hk', hv]⟩

theorem lookupKey_objSpread (a b : List (String × JSVal)) (k : String) :
    lookupKey (objSpread a b) k = (lookupKey b k).or (lookupKey a k) := by
  induction a with
  | nil =>
    simp only [objSpread, List.filter_nil, List.nil_append, lookupKey]
    cases hb : lookupKey b k <;> rfl
  | cons p rest ih =>
    obtain ⟨k', v'⟩ := p
    by_cases hmem : b.any (fun q => q.1 == k') = true
    · have hfilter : objSpread ((k', v') :: rest) b = objSpread rest b := by
        simp [objSpread, List.filter_cons, hmem]
      rw [hfilter, ih]
      by_cases hk : (k' == k) = true
      · have hkk : k' = k := by simpa using hk
        subst hkk
        rcases lookupKey_isSome_of_any_true b k' hmem with ⟨v, hv⟩
        simp [lookupKey, hk, hv, Option.or]
      · have hk' : (k' == k) = false := by simpa using hk
        simp [lookupKey, hk']
    · have hmem' : b.any (fun q => q.1 == k') = false :=
        Bool.eq_false_iff.mpr hmem
      have hfilter : objSpread ((k', v') :: rest) b =
          (k', v') :: objSpread rest b := by
        simp [objSpread, List.filter_cons, hmem']
      rw [hfilter]
      by_cases hk : (k' == k) = true
      · have hkk : k' = k := by simpa using hk
        have hb : lookupKey b k = none := by
          apply lookupKey_none_of_any_false
          subst hkk
          exact hmem'
        simp [lookupKey, hk, hb, Option.or]
      · have hk' : (k' == k) = false := by simpa using hk
        simp [lookupKey, hk', ih]

theorem refreshStep_le_one (s : Nat) (e : RefreshEvent) (h : s ≤ 1) :
    refreshStep s e ≤ 1 := by
  cases e with
  | timerTick queries =>
    simp only [refreshStep]
    split
    · rename_i h0
      have hs : s = 0 := by
        have h1 := (Bool.and_eq_true _ _).mp h0
        simpa using h1.1
      omega
    · exact h
  | responseArrives =>
    simp only [refreshStep]
    omega

theorem foldl_refreshStep_le_one (events : List RefreshEvent) (s : Nat)
    (h : s ≤ 1) : events.foldl refreshStep s ≤ 1 := by
  induction events generalizing s with
  | nil => exact h
  | cons e rest ih => exact ih _ (refreshStep_le_one s e h)

/-! ## Claim theorems -/

/-- C3: `shouldCheckForQueries queries` is true exactly when some value
of the dictionary is a query `isQueryRunning` accepts; in particular it
is true for a dictionary holding one running query and false for a
dictionary holding only completed queries. -/
theorem shouldCheckForQueries_iff_running_value :
    (∀ fields : List (String × JSVal),
      shouldCheckForQueries (JSVal.obj fields) = true ↔
        ∃ p ∈ fields, isQueryRunning p.2 = true) ∧
    shouldCheckForQueries runningQueriesVal = true ∧
    shouldCheckForQueries successfulQueriesVal = false := by
  refine ⟨fun fields => ?_, rfl, rfl⟩
  simp [shouldCheckForQueries, List.any_eq_true]

/-- C8: `isQueryRunning` and `shouldCheckForQueries` are total and
return `false` on every `null`, `undefined`, string, number, boolean,
array or malformed-state input, and a dictionary mixing a valid running
query with a `null` entry still triggers the refresh fetch. -/
theorem query_predicates_total_on_invalid_inputs :
    isQueryRunning JSVal.null = false ∧
    isQueryRunning JSVal.undefined = false ∧
    (∀ s, isQueryRunning (JSVal.str s) = false) ∧
    (∀ n, isQueryRunning (JSVal.num n) = false) ∧
    (∀ b, isQueryRunning (JSVal.bool b) = false) ∧
    (∀ elems, isQueryRunning (JSVal.arr elems) = false) ∧
    isQueryRunning (JSVal.obj
      [("state", JSVal.obj [("badFormat", JSVal.bool true)])]) = false ∧
    shouldCheckForQueries JSVal.null = false ∧
    shouldCheckForQueries JSVal.undefined = false ∧
    (∀ s, shouldCheckForQueries (JSVal.str s) = false) ∧
    shouldCheckForQueries invalidQueriesVal = false ∧
    shouldCheckForQueries mixedQueriesVal = true ∧
    tickRequests mixedQueriesVal = [⟨"GET", Endpoint.queryUpdatedSince⟩] ∧
    tickActions mixedQueriesVal [⟨"abcd1234", "success"⟩] =
      [SqlLabAction.refreshQueries [⟨"abcd1234", "success"⟩],
       SqlLabAction.clearInactiveQueries] :=
  ⟨rfl, rfl, fun _ => rfl, fun _ => rfl, fun _ => rfl, fun _ => rfl,
   rfl, rfl, rfl, fun _ => rfl, rfl, rfl, rfl, rfl⟩

/-- C2: a polling tick during which no tracked query is running issues
no request to the query-status endpoint and dispatches nothing. -/
theorem tick_skips_fetch_when_no_running (queries : JSVal)
    (h : shouldCheckForQueries queries = false) :
    tickRequests queries = [] ∧
    ∀ result, tickActions queries result = [] := by
  refine ⟨?_, fun result => ?_⟩ <;> simp [tickRequests, tickActions, h]

/-- C2 witness: the completed-queries fixture issues no request. -/
theorem tick_skips_fetch_when_no_running_witness :
    shouldCheckForQueries successfulQueriesVal = false ∧
    (tickRequests successfulQueriesVal = [] ∧
     ∀ result, tickActions successfulQueriesVal result = []) :=
  ⟨rfl, tick_skips_fetch_when_no_running successfulQueriesVal rfl⟩

/-- C1 counterexample: on a tick with a running query whose status
fetch returns an empty result list, the loop dispatches only the prune
action; no refresh action is dispatched, so the claim's "both
dispatches occur ... including when the server returns an empty result
list" fails at this input. -/
theorem tick_empty_result_omits_refresh :
    shouldCheckForQueries runningQueriesVal = true ∧
    tickActions runningQueriesVal [] =
      [SqlLabAction.clearInactiveQueries] :=
  ⟨rfl, rfl⟩

/-- C1 amended: on every tick with at least one running query the loop
issues the status request and dispatches the prune action; the refresh
action is dispatched exactly when the returned result list is
non-empty, and on an empty result list only the prune action is
dispatched. -/
theorem tick_refresh_and_prune_dispatches (queries : JSVal)
    (result : List QueryUpdate)
    (h : shouldCheckForQueries queries = true) :
    tickRequests queries = [⟨"GET", Endpoint.queryUpdatedSince⟩] ∧
    SqlLabAction.clearInactiveQueries ∈ tickActions queries result ∧
    (result ≠ [] →
      SqlLabAction.refreshQueries result ∈ tickActions queries result) ∧
    (result = [] →
      tickActions queries result = [SqlLabAction.clearInactiveQueries]) := by
  refine ⟨by simp [tickRequests, h], ?_, ?_, ?_⟩ <;>
    cases result <;> simp [tickActions, h]

/-- C1 witness: the running-query fixture with a one-element result
list. -/
theorem tick_refresh_and_prune_dispatches_witness :
    shouldCheckForQueries runningQueriesVal = true ∧
    (tickRequests runningQueriesVal =
        [⟨"GET", Endpoint.queryUpdatedSince⟩] ∧
     SqlLabAction.clearInactiveQueries ∈
        tickActions runningQueriesVal [⟨"abcd1234", "success"⟩] ∧
     ([⟨"abcd1234", "success"⟩] ≠ ([] : List QueryUpdate) →
       SqlLabAction.refreshQueries [⟨"abcd1234", "success"⟩] ∈
         tickActions runningQueriesVal [⟨"abcd1234", "success"⟩]) ∧
     ([⟨"abcd1234", "success"⟩] = ([] : List QueryUpdate) →
       tickActions runningQueriesVal [⟨"abcd1234", "success"⟩] =
         [SqlLabAction.clearInactiveQueries])) :=
  ⟨rfl, tick_refresh_and_prune_dispatches runningQueriesVal
    [⟨"abcd1234", "success"⟩] rfl⟩

/-- C6: at every moment of the polling loop's operation at most one
status request is outstanding: after any sequence of timer ticks and
response arrivals the outstanding count is at most one, and a single
tick issues at most one request. -/
theorem refresh_at_most_one_outstanding (events : List RefreshEvent) :
    runRefresh events ≤ 1 ∧
    ∀ queries, (tickRequests queries).length ≤ 1 := by
  refine ⟨foldl_refreshStep_le_one events 0 (by omega), fun queries => ?_⟩
  simp only [tickRequests]
  split <;> simp

/-- C4: an explore response whose payload has `form_data` and `dataset`
but no dataset id makes `fetchExploreData` merge the response's form
data under the fallback object's form data (the fallback keys win),
copy a truthy `slice`, and throw instead of returning the payload; the
thrown `Error` carries no `extra`, so the rejection handler hydrates
the explore view with that fallback data object. -/
theorem fetchExploreData_fallback_on_missing_dataset_id
    (rv : ExploreResponsePayload) (fb : FallbackData)
    (clientError : Option ClientErrorObject) (chartId : Option String)
    (chartFetch : Option ChartResult)
    (h1 : isValidResult rv = true) (h2 : hasDatasetId rv = false) :
    (fetchExploreData rv fb).outcome =
      Except.error (fetchErrMessage rv) ∧
    (fetchExploreData rv fb).fallback.form_data =
      objSpread (exploreFormData rv) fb.form_data ∧
    (∀ k v, lookupKey fb.form_data k = some v →
      lookupKey (fetchExploreData rv fb).fallback.form_data k = some v) ∧
    (∀ k, lookupKey fb.form_data k = none →
      lookupKey (fetchExploreData rv fb).fallback.form_data k =
        lookupKey (exploreFormData rv) k) ∧
    (∀ s, exploreSlice rv = some s → jsTruthy s = true →
      (fetchExploreData rv fb).fallback.slice = some s) ∧
    (explorePageOnSettled (some ⟨JSVal.undefined, JSVal.undefined⟩)
        clientError (fetchExploreData rv fb).fallback chartId
        chartFetch).1 =
      [ExploreAction.addDangerToast (toastMessage clientError),
       ExploreAction.hydrateExplore
         (HydrateSource.fallbackData (fetchExploreData rv fb).fallback)] := by
  have hform : (fetchExploreData rv fb).fallback.form_data =
      objSpread (exploreFormData rv) fb.form_data := by
    rcases hsl : exploreSlice rv with _ | s
    · simp [fetchExploreData, h1, h2, hsl]
    · by_cases ht : jsTruthy s = true
      · simp [fetchExploreData, h1, h2, hsl, ht]
      · simp [fetchExploreData, h1, h2, hsl, ht]
  refine ⟨?_, hform, ?_, ?_, ?_, rfl⟩
  · rcases hsl : exploreSlice rv with _ | s
    · simp [fetchExploreData, h1, h2, hsl]
    · by_cases ht : jsTruthy s = true
      · simp [fetchExploreData, h1, h2, hsl, ht]
      · simp [fetchExploreData, h1, h2, hsl, ht]
  · intro k v hkv
    rw [hform, lookupKey_objSpread, hkv]
    rfl
  · intro k hk
    rw [hform, lookupKey_objSpread, hk]
    rfl
  · intro s hsl ht
    simp [fetchExploreData, h1, h2, hsl, ht]

/-- C4 witness: the dataset-without-id fixture. -/
theorem fetchExploreData_fallback_on_missing_dataset_id_witness :
    isValidResult exampleMissingIdPayload = true ∧
    hasDatasetId exampleMissingIdPayload = false ∧
    (fetchExploreData exampleMissingIdPayload exampleFallback).outcome =
      Except.error (fetchErrMessage exampleMissingIdPayload) :=
  ⟨rfl, rfl,
   (fetchExploreData_fallback_on_missing_dataset_id
      exampleMissingIdPayload exampleFallback none none none rfl rfl).1⟩

/-- C5: every rejection of the explore data fetch dispatches a
danger-toast action first, whatever the error, the chart id and the
outcome of the secondary chart fetch; the message is the client error
object's `message`, else its `error`, else the default text. -/
theorem explorePage_rejection_dispatches_danger_toast (e : ErrObj)
    (clientError : Option ClientErrorObject) (fb : FallbackData)
    (chartId : Option String) (chartFetch : Option ChartResult) :
    (explorePageOnSettled (some e) clientError fb chartId
        chartFetch).1.head? =
      some (ExploreAction.addDangerToast (toastMessage clientError)) ∧
    (∀ c m, clientError = some c → c.message = some m → m ≠ "" →
      toastMessage clientError = m) ∧
    (∀ c er, clientError = some c →
      (c.message = none ∨ c.message = some "") → c.error = some er →
      er ≠ "" → toastMessage clientError = er) ∧
    (∀ c, clientError = some c →
      (c.message = none ∨ c.message = some "") →
      (c.error = none ∨ c.error = some "") →
      toastMessage clientError = "Failed to load chart data.") ∧
    (clientError = none →
      toastMessage clientError = "Failed to load chart data.") := by
  refine ⟨?_, ?_, ?_, ?_, ?_⟩
  · simp only [explorePageOnSettled]
    repeat' split
    all_goals rfl
  · intro c m hc hm hne
    subst hc
    have hemp : m.isEmpty = false := by
      rw [Bool.eq_false_iff]
      simpa [String.isEmpty_iff] using hne
    simp [toastMessage, firstTruthyString, hm, hemp]
  · intro c er hc hm her hne
    subst hc
    have hemp : er.isEmpty = false := by
      rw [Bool.eq_false_iff]
      simpa [String.isEmpty_iff] using hne
    have hes : ("" : String).isEmpty = true := rfl
    rcases hm with hm | hm <;>
      simp [toastMessage, firstTruthyString, hm, her, hemp, hes]
  · intro c hc hm her
    subst hc
    have hes : ("" : String).isEmpty = true := rfl
    rcases hm with hm | hm <;> rcases her with her | her <;>
      simp [toastMessage, firstTruthyString, hm, her, hes]
  · intro hc
    subst hc
    rfl

/-- C9: after validation, the save button of `AnnotationModal` is
enabled (`disableSave = false`) exactly when the current annotation is
present and its `short_descr`, `start_dttm` and `end_dttm` are all
non-empty strings. -/
theorem disableSave_false_iff_required_fields_nonempty
    (cur : Option AnnotationObject) :
    validateDisableSave cur = false ↔
      ∃ a, cur = some a ∧
        (∃ s, a.short_descr = some s ∧ s ≠ "") ∧
        (∃ s, a.start_dttm = some s ∧ s ≠ "") ∧
        (∃ s, a.end_dttm = some s ∧ s ≠ "") := by
  rcases cur with _ | a
  · constructor
    · intro h
      cases h
    · rintro ⟨a, h, -⟩
      cases h
  · simp only [validateDisableSave]
    by_cases hc : (optLenTruthy a.short_descr &&
        optLenTruthy a.start_dttm && optLenTruthy a.end_dttm) = true
    · rw [if_pos hc]
      rw [Bool.and_eq_true, Bool.and_eq_true] at hc
      constructor
      · intro _
        exact ⟨a, rfl, (optLenTruthy_iff _).mp hc.1.1,
          (optLenTruthy_iff _).mp hc.1.2, (optLenTruthy_iff _).mp hc.2⟩
      · intro _
        rfl
    · rw [if_neg hc]
      constructor
      · intro h
        cases h
      · rintro ⟨a', ha', h1, h2, h3⟩
        injection ha' with ha'
        subst ha'
        refine absurd ?_ hc
        rw [Bool.and_eq_true, Bool.and_eq_true]
        exact ⟨⟨(optLenTruthy_iff _).mpr h1, (optLenTruthy_iff _).mpr h2⟩,
          (optLenTruthy_iff _).mpr h3⟩

/-- C10: when the resource call of `AnnotationModal.onSave` resolves
with a falsy response, no success toast is shown, the callback is not
invoked and the modal stays visible; toast, callback and hide happen
exactly on a truthy response, and the edit-mode payload is the current
annotation with `id`, `created_by`, `changed_by`,
`changed_on_delta_humanized` and `layer` removed. -/
theorem annotationModal_onSave_effects (a : AnnotationObject)
    (layerId : Nat) (hasCallback : Bool) (i : Nat)
    (hid : a.id = some i) (hi : i ≠ 0) :
    (annotationModalOnSave true (some a) layerId hasCallback
        false).successToast = none ∧
    (annotationModalOnSave true (some a) layerId hasCallback
        false).callbackInvoked = false ∧
    (annotationModalOnSave true (some a) layerId hasCallback
        false).hidden = false ∧
    (annotationModalOnSave false (some a) layerId hasCallback
        false).successToast = none ∧
    (annotationModalOnSave false (some a) layerId hasCallback
        false).callbackInvoked = false ∧
    (annotationModalOnSave false (some a) layerId hasCallback
        false).hidden = false ∧
    (annotationModalOnSave true (some a) layerId hasCallback
        true).successToast = some "The annotation has been updated" ∧
    (annotationModalOnSave true (some a) layerId hasCallback
        true).callbackInvoked = hasCallback ∧
    (annotationModalOnSave true (some a) layerId hasCallback
        true).hidden = true ∧
    (annotationModalOnSave false (some a) layerId hasCallback
        true).successToast = some "The annotation has been saved" ∧
    (annotationModalOnSave false (some a) layerId hasCallback
        true).callbackInvoked = hasCallback ∧
    (annotationModalOnSave false (some a) layerId hasCallback
        true).hidden = true ∧
    (annotationModalOnSave true (some a) layerId hasCallback
        false).request =
      some (⟨"PUT", Endpoint.annotationOf layerId⟩, stripForUpdate a) ∧
    (stripForUpdate a).id = none ∧
    (stripForUpdate a).created_by = none ∧
    (stripForUpdate a).changed_by = none ∧
    (stripForUpdate a).changed_on_delta_humanized = none ∧
    (stripForUpdate a).layer = none := by
  have hb : (i != 0) = true := by simpa using hi
  simp [annotationModalOnSave, hid, hb, stripForUpdate]

/-- C10 witness: the populated annotation fixture in layer 1. -/
theorem annotationModal_onSave_effects_witness :
    exampleAnnotationRecord.id = some 7 ∧ (7 : Nat) ≠ 0 ∧
    (annotationModalOnSave true (some exampleAnnotationRecord) 1 true
        false).successToast = none :=
  ⟨rfl, by decide,
   (annotationModal_onSave_effects exampleAnnotationRecord 1 true 7 rfl
      (by decide)).1⟩

/-- C7 counterexample: saving a new annotation issues a request to the
annotation CRUD endpoint, an endpoint outside all three families the
claim lists. -/
theorem annotation_endpoint_outside_claim_list :
    (annotationModalOnSave false (some exampleAnnotationRecord) 1 true
        true).request =
      some (⟨"POST", Endpoint.annotationOf 1⟩, exampleAnnotationRecord) ∧
    claimListedEndpoint (Endpoint.annotationOf 1) = false ∧
    (⟨"POST", Endpoint.annotationOf 1⟩ : Request) ∈
      excerptRequests emptyPayload exampleFallback none none none none
        successfulQueriesVal false (some exampleAnnotationRecord) 1
        true true ∧
    Endpoint.url (Endpoint.annotationOf 1) =
      "annotation_layer/1/annotation" := by
  refine ⟨rfl, rfl, ?_, rfl⟩
  decide

theorem fetchExploreData_requests (rv : ExploreResponsePayload)
    (fb : FallbackData) :
    (fetchExploreData rv fb).requests = [⟨"GET", Endpoint.explore⟩] := by
  simp only [fetchExploreData]
  split
  · split <;> rfl
  · rfl

theorem explorePageOnSettled_requests_chart (errv : Option ErrObj)
    (clientError : Option ClientErrorObject) (fb : FallbackData)
    (chartId : Option String) (chartFetch : Option ChartResult) :
    ∀ r ∈ (explorePageOnSettled errv clientError fb chartId
        chartFetch).2,
      ∃ cid, r = ⟨"GET", Endpoint.chart cid⟩ := by
  intro r hr
  rcases errv with _ | e
  · simp [explorePageOnSettled] at hr
  · by_cases hd : jsTruthy e.extraDatasource = true
    · rcases chartId with _ | cid
      · simp [explorePageOnSettled, hd] at hr
      · by_cases hc : cid.isEmpty = true
        · simp [explorePageOnSettled, hd, hc] at hr
        · rcases chartFetch with _ | chart <;>
            · simp [explorePageOnSettled, hd, hc] at hr
              exact ⟨cid, hr⟩
    · simp [explorePageOnSettled, hd] at hr

theorem tickRequests_endpoint (queries : JSVal) :
    ∀ r ∈ tickRequests queries,
      r = ⟨"GET", Endpoint.queryUpdatedSince⟩ := by
  intro r hr
  simp only [tickRequests] at hr
  split at hr
  · simpa using hr
  · simp at hr

theorem annotationModalOnSave_request_endpoint (isEditMode : Bool)
    (cur : Option AnnotationObject) (layerId : Nat)
    (hasCallback responseOk : Bool) :
    ∀ p, (annotationModalOnSave isEditMode cur layerId hasCallback
        responseOk).request = some p →
      p.1.endpoint = Endpoint.annotationOf layerId := by
  rintro ⟨p1, p2⟩ hp
  rcases cur with _ | a
  · cases isEditMode <;> simp [annotationModalOnSave] at hp
  · cases isEditMode
    · cases responseOk <;>
        · simp [annotationModalOnSave] at hp
          rw [← hp.1]
    · rcases ha : a.id with _ | updateId
      · simp [annotationModalOnSave, ha] at hp
      · by_cases h0 : (updateId != 0) = true
        · cases responseOk <;>
            · simp [annotationModalOnSave, ha, h0] at hp
              rw [← hp.1]
        · simp [annotationModalOnSave, ha, h0] at hp

/-- C7 amended: every request any operation of the excerpt issues goes
to one of the endpoint families section 6 of the spec lists — explore
hydration, the chart lookup, the query status poll, or the annotation
CRUD endpoint (the last of which the claim omits). -/
theorem excerpt_requests_spec_listed (rv : ExploreResponsePayload)
    (fb : FallbackData) (errv : Option ErrObj)
    (clientError : Option ClientErrorObject) (chartId : Option String)
    (chartFetch : Option ChartResult) (queries : JSVal)
    (isEditMode : Bool) (cur : Option AnnotationObject) (layerId : Nat)
    (hasCallback responseOk : Bool) :
    ∀ r ∈ excerptRequests rv fb errv clientError chartId chartFetch
        queries isEditMode cur layerId hasCallback responseOk,
      specListedEndpoint r.endpoint = true := by
  intro r hr
  simp only [excerptRequests, List.mem_append] at hr
  rcases hr with ((hr | hr) | hr) | hr
  · rw [fetchExploreData_requests] at hr
    simp at hr
    rw [hr]
    rfl
  · rcases explorePageOnSettled_requests_chart errv clientError fb
      chartId chartFetch r hr with ⟨cid, hcid⟩
    rw [hcid]
    rfl
  · rw [tickRequests_endpoint queries r hr]
    rfl
  · rcases hreq : (annotationModalOnSave isEditMode cur layerId
        hasCallback responseOk).request with _ | p
    · rw [hreq] at hr
      simp at hr
    · rw [hreq] at hr
      simp at hr
      rw [hr, annotationModalOnSave_request_endpoint isEditMode cur
        layerId hasCallback responseOk p hreq]
      rfl

/-- C7 amended witness: the explore fetch request at concrete inputs. -/
theorem excerpt_requests_spec_listed_witness :
    (⟨"GET", Endpoint.explore⟩ : Request) ∈
      excerptRequests emptyPayload exampleFallback none none none none
        successfulQueriesVal false none 1 true true ∧
    specListedEndpoint Endpoint.explore = true :=
  ⟨by decide,
   excerpt_requests_spec_listed emptyPayload exampleFallback none none
     none none successfulQueriesVal false none 1 true true
     ⟨"GET", Endpoint.explore⟩ (by decide)⟩

end Superset
